import Mathlib

set_option maxRecDepth 100000

/- Shallow embedding of the LinkedIn Comment Copilot comment-generation
pipeline: the anti-detection gate (src/core/antidetect.js), the semantic
cache (src/services/storage.js, CacheService), and the background service
worker (src/background/service-worker.js).  JavaScript numbers are modelled
as Int (timestamps, milliseconds) and Rat (similarity ratios); JavaScript
strings as Lean String over their ASCII fragment; the ambient
chrome.storage state is passed explicitly; Math.random draws are explicit
parameters. -/

-- ===========================================================================
-- JavaScript primitives
-- ===========================================================================

/-- ASCII whitespace recognised by the regex class backslash-s (the inputs in
this development are ASCII, so the unicode space classes are not needed). -/
def jsIsSpace (c : Char) : Bool :=
  c = ' ' || c = '\t' || c = '\n' || c = '\r' || c = '\x0b' || c = '\x0c'

/-- The regex word-character class: letters, digits and underscore. -/
def isWordChar (c : Char) : Bool :=
  c.isAlphanum || c = '_'

/-- Math.ceil (a / b) for integer a and positive b, as used for the
resetIn and waitSeconds computations. -/
def jsCeilDiv (a b : ℤ) : ℤ := -(Int.fdiv (-a) b)

/-- Math.round for a rational argument: floor (q + 1/2), written on the
numerator and denominator so that kernel reduction can evaluate it. -/
def jsRound (q : ℚ) : ℤ := Int.fdiv (2 * q.num + (q.den : ℤ)) (2 * (q.den : ℤ))

/-- Multiplication of a rational by 100 (for the similarity percentage),
written on the numerator and denominator so that kernel reduction can
evaluate it. -/
def timesHundred (q : ℚ) : ℚ := mkRat (q.num * 100) q.den

/-- Math.max over a list of timestamps (only used on nonempty lists). -/
def maxIntList : List ℤ → ℤ
  | [] => 0
  | x :: xs => xs.foldl max x

/-- Math.min over a list of timestamps (only used on nonempty lists). -/
def minIntList : List ℤ → ℤ
  | [] => 0
  | x :: xs => xs.foldl min x

/-- String.prototype.split with separator regex backslash-s-plus, as in
AntiDetect.calculateSimilarity.  A leading whitespace run yields a leading
empty element, a trailing run yields a trailing empty element, and the
empty string yields the singleton list of the empty string.  The Bool flag
records whether the scanner is inside a separator run. -/
def jsSplitWsAux : List Char → List Char → Bool → List String
  | [], acc, inWs => if inWs then [""] else [String.mk acc.reverse]
  | c :: rest, acc, inWs =>
    if inWs then
      if jsIsSpace c then jsSplitWsAux rest acc true
      else jsSplitWsAux rest [c] false
    else
      if jsIsSpace c then (String.mk acc.reverse) :: jsSplitWsAux rest [] true
      else jsSplitWsAux rest (c :: acc) false

def jsSplitWs (s : String) : List String :=
  jsSplitWsAux s.data [] false

/-- String.prototype.toLowerCase over the ASCII fragment, written on the
character list so that kernel reduction can evaluate it. -/
def jsToLower (s : String) : String := String.mk (s.data.map Char.toLower)

-- ===========================================================================
-- AntiDetect.checkRateLimit (src/core/antidetect.js lines 27-67)
-- ===========================================================================

/-- Result object of AntiDetect.checkRateLimit.  Fields that a branch does
not set are modelled as none. -/
structure RateCheck where
  allowed : Bool
  remaining : ℤ
  resetIn : Option ℤ := none
  waitSeconds : Option ℤ := none
  reason : Option String := none
  deriving DecidableEq, Repr

/-- AntiDetect.checkRateLimit: filter the recorded timestamps to the
trailing hour; reject with remaining 0 when at least 10 remain; otherwise
reject with a wait hint when the newest is under 30 seconds old; otherwise
allow.  config.maxCommentsPerHour = 10, config.minTimeBetweenComments =
30000 ms, window = 3600000 ms. -/
def checkRateLimit (timestamps : List ℤ) (now : ℤ) : RateCheck :=
  let hourAgo := now - 3600000
  let recent := timestamps.filter (fun ts => hourAgo < ts)
  if 10 ≤ recent.length then
    { allowed := false
      remaining := 0
      resetIn := some (jsCeilDiv (minIntList recent + 3600000 - now) 60000)
      reason := some "Hourly limit reached (10/hour)" }
  else if 0 < recent.length ∧ now - maxIntList recent < 30000 then
    { allowed := false
      remaining := 10 - (recent.length : ℤ)
      waitSeconds := some (jsCeilDiv (30000 - (now - maxIntList recent)) 1000)
      reason := some "Too soon after last comment" }
  else
    { allowed := true, remaining := 10 - (recent.length : ℤ) }

-- ===========================================================================
-- AntiDetect.calculateSimilarity / checkSimilarityToRecent
-- (src/core/antidetect.js lines 82-108)
-- ===========================================================================

/-- The word set of a text, new Set(text.toLowerCase().split(regex)),
modelled as a duplicate-free list.  Only membership and size of this set
are ever consumed, so the iteration order of the JavaScript Set is
irrelevant and List.dedup is an exact model. -/
def wordsOf (t : String) : List String :=
  (jsSplitWs (jsToLower t)).dedup

/-- AntiDetect.calculateSimilarity: Jaccard ratio intersection.size /
union.size of the two word sets.  The JavaScript double division is
modelled exactly in Rat; the ratios that arise have small denominators,
where the two agree. -/
def calculateSimilarity (t1 t2 : String) : ℚ :=
  let words1 := wordsOf t1
  let words2 := wordsOf t2
  let intersection := words1.filter (fun x => x ∈ words2)
  let union := (words1 ++ words2).dedup
  mkRat (intersection.length : ℤ) union.length

/-- config.similarityThreshold, the source literal 0.6, written as the
exact rational 3/5 (the double nearest to 0.6 is also the value of the
double division 3.0/5.0, so the strict comparison against it in the source
agrees with the exact rational comparison for the small word-set ratios
that arise). -/
def similarityThreshold : ℚ := mkRat 3 5

/-- Result object of AntiDetect.checkSimilarityToRecent; on failure the
reason string carries Math.round(similarity * 100), kept here as the
matchedPercent field. -/
structure SimCheck where
  passed : Bool
  similarity : Option ℚ := none
  matchedPercent : Option ℤ := none
  deriving DecidableEq, Repr

/-- The for-loop of checkSimilarityToRecent: return at the first history
entry whose similarity exceeds the threshold. -/
def simLoop (newComment : String) : List String → SimCheck
  | [] => { passed := true }
  | r :: rest =>
    let s := calculateSimilarity newComment r
    if similarityThreshold < s then
      { passed := false, similarity := some s
        matchedPercent := some (jsRound (timesHundred s)) }
    else simLoop newComment rest

/-- AntiDetect.checkSimilarityToRecent: getRecentComments returns the first
20 entries of the comment history (most recent first); the candidate is
compared against each in order. -/
def checkSimilarityToRecent (newComment : String) (history : List String) : SimCheck :=
  simLoop newComment (history.take 20)

-- ===========================================================================
-- CacheService semantic hashing (src/services/storage.js lines 193-229)
-- ===========================================================================

/-- A post as consumed by the cache: author name and content. -/
structure PostData where
  authorName : String
  content : String
  deriving DecidableEq, Repr

/-- The stop-word set of CacheService.extractKeywords. -/
def stopWords : List String :=
  ["the", "a", "an", "is", "are", "was", "were", "be", "been", "being",
   "have", "has", "had", "do", "does", "did", "will", "would", "could",
   "should", "may", "might", "must", "and", "or", "but", "if", "then",
   "else", "when", "at", "by", "for", "with", "about", "to", "from",
   "in", "on", "of", "that", "this", "it", "its", "i", "you", "we", "they"]

/-- The regex replace of the class complement of word-and-space characters
by the empty string: keep word characters and whitespace, drop the rest. -/
def stripNonWord (s : String) : String :=
  String.mk (s.data.filter (fun c => isWordChar c || jsIsSpace c))

/-- Insertion step of a stable insertion sort; with a total le relation
that answers true on ties this reproduces the stable JavaScript
Array.prototype.sort. -/
def insertLe (le : α → α → Bool) (x : α) : List α → List α
  | [] => [x]
  | y :: ys => if le x y then x :: y :: ys else y :: insertLe le x ys

/-- Stable sort modelling Array.prototype.sort (written as an insertion
sort so that kernel reduction can evaluate it). -/
def stableSort (le : α → α → Bool) (l : List α) : List α :=
  l.foldr (insertLe le) []

/-- Lexicographic comparison of character lists by code unit, the default
comparison of Array.prototype.sort on strings. -/
def charListLt : List Char → List Char → Bool
  | [], [] => false
  | [], _ :: _ => true
  | _ :: _, [] => false
  | a :: as, b :: bs =>
    if a.toNat < b.toNat then true
    else if b.toNat < a.toNat then false
    else charListLt as bs

/-- The le form of the default string comparison. -/
def jsStrLe (a b : String) : Bool := !(charListLt b.data a.data)

/-- CacheService.extractKeywords: lowercase, strip punctuation, split on
whitespace, keep words longer than 3 characters that are not stop words,
sort (the default lexicographic string sort), and keep each word once (the
indexOf filter; on a sorted list this agrees with List.dedup because
duplicates are adjacent and equal). -/
def extractKeywords (text : String) : List String :=
  let cleaned := stripNonWord (jsToLower text)
  let words := jsSplitWs cleaned
  let kept := words.filter (fun w => decide (3 < w.length) && !(stopWords.contains w))
  (stableSort jsStrLe kept).dedup

/-- Bucketing of the raw content length used in the semantic hash:
long for length over 200, medium for length over 100, short otherwise. -/
def lengthBucket (content : String) : String :=
  if 200 < content.length then "long"
  else if 100 < content.length then "medium"
  else "short"

/-- ToInt32 wrap-around of JavaScript bitwise operations. -/
def toInt32 (x : ℤ) : ℤ :=
  Int.emod (x + 2147483648) 4294967296 - 2147483648

/-- One step of the string hash: hash = ((hash shl 5) - hash) + charCode,
then hash = hash AND hash, both 32-bit wrapping. -/
def jsHashStep (h : ℤ) (c : Char) : ℤ :=
  toInt32 (toInt32 (h * 32) - h + (c.toNat : ℤ))

/-- Digit character for Number.prototype.toString(36). -/
def base36Digit (n : Nat) : Char :=
  if n < 10 then Char.ofNat (48 + n) else Char.ofNat (87 + n)

/-- Base-36 digits of n, most significant first.  The first argument is
fuel (n + 1 steps always suffice). -/
def natToBase36Aux : Nat → Nat → List Char
  | 0, _ => []
  | fuel + 1, n =>
    if n < 36 then [base36Digit n]
    else natToBase36Aux fuel (n / 36) ++ [base36Digit (n % 36)]

/-- Number.prototype.toString(36) for a nonnegative integer. -/
def natToBase36 (n : Nat) : String :=
  String.mk (natToBase36Aux (n + 1) n)

/-- Joining with a separator, String.prototype.join. -/
def joinWith (sep : String) : List String → String
  | [] => ""
  | [x] => x
  | x :: y :: xs => x ++ sep ++ joinWith sep (y :: xs)

/-- CacheService.generateSemanticHash: the first 20 characters of the
lowercased author name, the first 5 extracted keywords joined by a bar,
and the length bucket, joined by double colons and run through the 32-bit
string hash, printed in base 36 after Math.abs. -/
def generateSemanticHash (postData : PostData) : String :=
  let authorTok := String.mk ((jsToLower postData.authorName).data.take 20)
  let keywordTok := joinWith "|" ((extractKeywords postData.content).take 5)
  let str := joinWith "::" [authorTok, keywordTok, lengthBucket postData.content]
  natToBase36 (str.data.foldl jsHashStep 0).natAbs

-- ===========================================================================
-- CacheService.applyVariation (src/services/storage.js lines 289-346)
-- ===========================================================================

/-- Sentence terminators of the lookbehind in the opening-rephrase split. -/
def isSentEnd (c : Char) : Bool := c = '.' || c = '!' || c = '?'

/-- String.prototype.split on the regex that matches a whitespace run
preceded by a sentence terminator.  The Bool flag records whether the
scanner is inside a separator run; the accumulator holds the current
segment reversed. -/
def splitSentAux : List Char → List Char → Bool → List String
  | [], acc, inWs => if inWs then [""] else [String.mk acc.reverse]
  | c :: rest, acc, inWs =>
    if inWs then
      if jsIsSpace c then splitSentAux rest acc true
      else splitSentAux rest [c] false
    else
      if jsIsSpace c && (acc.headD ' ' |> isSentEnd) then
        (String.mk acc.reverse) :: splitSentAux rest [] true
      else splitSentAux rest (c :: acc) false

def splitSentences (s : String) : List String :=
  splitSentAux s.data [] false

/-- The opening strings of the opening-rephrase variation. -/
def openingsList : List String :=
  ["Interesting point - ", "This resonates - ",
   "I've been thinking about this - ", "You know, ", ""]

/-- Lowercase the first character and keep the rest:
s.charAt(0).toLowerCase() + s.slice(1). -/
def lowerFirst (s : String) : String :=
  match s.data with
  | [] => ""
  | c :: cs => String.mk (Char.toLower c :: cs)

/-- Opening-rephrase variation: if there are at least two sentences,
replace the first by a chosen opening followed by the first sentence with
its initial letter lowercased, and join with single spaces. -/
def varyOpening (t : String) (openingIdx : Fin 5) : String :=
  let sentences := splitSentences t
  if sentences.length < 2 then t
  else
    match sentences with
    | [] => t
    | s0 :: rest =>
      joinWith " " ((openingsList.getD openingIdx.val "" ++ lowerFirst s0) :: rest)

/-- The trailing-thought strings of the second variation. -/
def additionsList : List String :=
  [" Curious to hear more.", " Would love to discuss further.",
   " Thanks for sharing this perspective.", ""]

/-- t.replace(regex of dot-or-bang at end of string, empty): remove a
single trailing period or exclamation mark; as in JavaScript the anchor
also matches just before a final newline. -/
def stripTrailingStop (t : String) : String :=
  match t.data.reverse with
  | c :: rest =>
    if c = '.' || c = '!' then String.mk rest.reverse
    else
      match c, rest with
      | '\n', d :: rest2 =>
        if d = '.' || d = '!' then String.mk (('\n' :: rest2).reverse)
        else t
      | _, _ => t
  | [] => t

/-- Trailing-thought variation: strip a trailing stop and append a chosen
addition. -/
def varyTrailing (t : String) (additionIdx : Fin 4) : String :=
  stripTrailingStop t ++ additionsList.getD additionIdx.val ""

/-- Case-insensitive match of the pattern word (given lowercased) at the
start of the character list; on success returns the remainder, which must
then start with a non-word character (or be empty) for the trailing
word boundary of the regex. -/
def ciDropWord : List Char → List Char → Option (List Char)
  | [], rest => some rest
  | _, [] => none
  | w :: ws, c :: cs => if Char.toLower c = w then ciDropWord ws cs else none

/-- Word-boundary check on the remainder after a candidate match. -/
def boundaryAfter : List Char → Bool
  | [] => true
  | c :: _ => !isWordChar c

/-- Match of the whole-word regex at the current position (the caller
guarantees the position follows a non-word character or the start). -/
def matchWordAt (w l : List Char) : Option (List Char) :=
  match ciDropWord w l with
  | none => none
  | some rest => if boundaryAfter rest then some rest else none

/-- Global replace of a whole word, case-insensitive: the regex with word
boundaries around the word and flags g and i.  The first argument is fuel
(the length of the list plus one always suffices since every step consumes
at least one character); the Bool records whether the previous character
was a word character. -/
def replaceWordAux (w repl : List Char) : Nat → List Char → Bool → List Char
  | 0, l, _ => l
  | _ + 1, [], _ => []
  | fuel + 1, c :: cs, prevIsWord =>
    if !prevIsWord then
      match matchWordAt w (c :: cs) with
      | some rest => repl ++ replaceWordAux w repl fuel rest true
      | none => c :: replaceWordAux w repl fuel cs (isWordChar c)
    else c :: replaceWordAux w repl fuel cs (isWordChar c)

def replaceWord (w repl t : String) : String :=
  String.mk (replaceWordAux w.data repl.data (t.data.length + 1) t.data false)

/-- regex.test for the same whole-word case-insensitive regex. -/
def containsWordAux (w : List Char) : Nat → List Char → Bool → Bool
  | 0, _, _ => false
  | _ + 1, [], _ => false
  | fuel + 1, c :: cs, prevIsWord =>
    if !prevIsWord && (matchWordAt w (c :: cs)).isSome then true
    else containsWordAux w fuel cs (isWordChar c)

def containsWord (w t : String) : Bool :=
  containsWordAux w.data (t.data.length + 1) t.data false

/-- The substitution table of the third variation, in source order. -/
def subsList : List (String × List String) :=
  [("really", ["genuinely", "truly", "particularly"]),
   ("think", ["believe", "feel", "sense"]),
   ("important", ["crucial", "vital", "key"]),
   ("interesting", ["fascinating", "compelling", "intriguing"]),
   ("great", ["excellent", "solid", "strong"])]

/-- Word-substitution variation: for the first table word that occurs in
the text (whole word, case-insensitive), replace every occurrence by the
chosen alternative and stop (the source breaks after one substitution). -/
def varySubsLoop (t : String) (subIdx : Fin 3) : List (String × List String) → String
  | [] => t
  | (w, alts) :: rest =>
    if containsWord w t then replaceWord w (alts.getD subIdx.val "") t
    else varySubsLoop t subIdx rest

def varySubs (t : String) (subIdx : Fin 3) : String :=
  varySubsLoop t subIdx subsList

/-- CacheService.applyVariation: one of the three strategies is drawn at
random; each strategy's internal Math.random draws are the remaining
indices. -/
def applyVariation (text : String) (strat : Fin 3) (openingIdx : Fin 5)
    (additionIdx : Fin 4) (subIdx : Fin 3) : String :=
  match strat with
  | 0 => varyOpening text openingIdx
  | 1 => varyTrailing text additionIdx
  | 2 => varySubs text subIdx

-- ===========================================================================
-- CacheService cache operations (src/services/storage.js lines 235-390)
-- ===========================================================================

/-- config.ttlMs = 24 hours. -/
def ttlMs : ℤ := 86400000

/-- config.maxEntries = 100. -/
def maxEntries : Nat := 100

/-- A cache entry: up to 5 stored responses and the write timestamp. -/
structure CacheEntry where
  responses : List String
  timestamp : ℤ
  deriving DecidableEq, Repr

/-- Indexing cache[hash].  The responseCache object is modelled as an
association list in insertion order (JavaScript objects preserve insertion
order for string keys). -/
def lookupCache (cache : List (String × CacheEntry)) (hash : String) : Option CacheEntry :=
  (cache.find? (fun p => p.1 = hash)).map (fun p => p.2)

/-- delete cache[hash] (keys are unique, so a filter is an exact model). -/
def eraseKey (cache : List (String × CacheEntry)) (hash : String) : List (String × CacheEntry) :=
  cache.filter (fun p => p.1 ≠ hash)

/-- CacheService.get, after the fingerprint has been computed: a miss
returns null and leaves the store alone; an expired entry (strictly older
than the TTL) is deleted and reported as a miss; a hit draws one of the
stored responses (the random index is the pick parameter) and applies a
variation with probability 0.3 (the draw is the vary parameter).  Returns
the optional comment and the resulting stored cache. -/
def cacheGetByHash (cache : List (String × CacheEntry)) (hash : String) (now : ℤ)
    (pick : Nat) (vary : Bool) (strat : Fin 3) (openingIdx : Fin 5)
    (additionIdx : Fin 4) (subIdx : Fin 3) :
    Option String × List (String × CacheEntry) :=
  match lookupCache cache hash with
  | none => (none, cache)
  | some entry =>
    if ttlMs < now - entry.timestamp then (none, eraseKey cache hash)
    else
      let response := entry.responses.getD (pick % entry.responses.length) ""
      (some (if vary then applyVariation response strat openingIdx additionIdx subIdx
             else response), cache)

/-- CacheService.get on a post: the key is the semantic hash. -/
def cacheGet (cache : List (String × CacheEntry)) (postData : PostData) (now : ℤ)
    (pick : Nat) (vary : Bool) (strat : Fin 3) (openingIdx : Fin 5)
    (additionIdx : Fin 4) (subIdx : Fin 3) :
    Option String × List (String × CacheEntry) :=
  cacheGetByHash cache (generateSemanticHash postData) now pick vary strat
    openingIdx additionIdx subIdx

/-- CacheService.cleanup: when the entry count exceeds maxEntries, sort by
timestamp descending (the stable sort with comparator b.timestamp -
a.timestamp) and keep the first maxEntries; then purge every entry
strictly older than the TTL. -/
def cleanup (cache : List (String × CacheEntry)) (now : ℤ) : List (String × CacheEntry) :=
  let kept :=
    if maxEntries < cache.length then
      (stableSort (fun a b => decide (b.2.timestamp ≤ a.2.timestamp)) cache).take maxEntries
    else cache
  kept.filter (fun p => decide (now - p.2.timestamp ≤ ttlMs))

/-- CacheService.set, after the fingerprint has been computed: append the
response to an existing entry (capped at 5 responses) refreshing its
timestamp, or create a fresh entry; then run cleanup. -/
def cacheSetByHash (cache : List (String × CacheEntry)) (hash : String)
    (response : String) (now : ℤ) : List (String × CacheEntry) :=
  let inserted :=
    match lookupCache cache hash with
    | some entry =>
      let entry2 : CacheEntry :=
        { responses := if entry.responses.length < 5
                       then entry.responses ++ [response] else entry.responses
          timestamp := now }
      cache.map (fun p => if p.1 = hash then (hash, entry2) else p)
    | none => cache ++ [(hash, { responses := [response], timestamp := now })]
  cleanup inserted now

/-- CacheService.set on a post: the key is the semantic hash. -/
def cacheSet (cache : List (String × CacheEntry)) (postData : PostData)
    (response : String) (now : ℤ) : List (String × CacheEntry) :=
  cacheSetByHash cache (generateSemanticHash postData) response now

-- ===========================================================================
-- Service worker rate limiting (src/background/service-worker.js 79-106)
-- ===========================================================================

/-- Result of the service worker checkRateLimit (no cooldown clause). -/
structure SWRateCheck where
  allowed : Bool
  remaining : ℤ
  resetIn : ℤ
  deriving DecidableEq, Repr

/-- checkRateLimit of the service worker: RATE_LIMIT.maxCommentsPerHour =
10, RATE_LIMIT.windowMs = 3600000; allowed while fewer than 10 timestamps
lie in the trailing window. -/
def swCheckRateLimit (timestamps : List ℤ) (now : ℤ) : SWRateCheck :=
  let windowStart := now - 3600000
  let recent := timestamps.filter (fun ts => windowStart < ts)
  { allowed := recent.length < 10
    remaining := 10 - (recent.length : ℤ)
    resetIn := if 0 < recent.length
               then jsCeilDiv (recent.headD 0 + 3600000 - now) 60000
               else 0 }

/-- recordCommentGeneration: drop timestamps outside the window and append
the current instant. -/
def recordCommentGeneration (timestamps : List ℤ) (now : ℤ) : List ℤ :=
  timestamps.filter (fun ts => now - 3600000 < ts) ++ [now]

-- ===========================================================================
-- Service worker LLM call with retries (src/background/service-worker.js
-- lines 126-282, remote-provider fetch path) and LLMService.call
-- ===========================================================================

/-- Environment behaviour of one fetch attempt: a parsed successful
response, an HTTP error status with the optional Retry-After header value
and the error body text, or a thrown network error. -/
inductive AttemptOutcome where
  | success (text : String)
  | httpError (status : Nat) (retryAfterHeader : Option String) (body : String)
  | netError (msg : String)
  deriving DecidableEq, Repr

deriving instance DecidableEq for Except

/-- Observable trace of a call: the final result, the number of fetch
attempts made, and the waits (in milliseconds) performed between
attempts. -/
structure CallTrace where
  result : Except String String
  attempts : Nat
  waits : List ℚ
  deriving DecidableEq, Repr

/-- String.prototype.includes. -/
def jsIncludesAux (sub : List Char) : List Char → Bool
  | [] => sub.isEmpty
  | c :: cs => sub.isPrefixOf (c :: cs) || jsIncludesAux sub cs

def jsIncludes (s sub : String) : Bool :=
  jsIncludesAux sub.data s.data

/-- Digits of a decimal numeral. -/
def digitsToNat (l : List Char) : Nat :=
  l.foldl (fun n c => n * 10 + (c.toNat - 48)) 0

/-- parseInt(s, 10): leading whitespace, optional sign, leading digits;
none models NaN. -/
def jsParseInt (s : String) : Option ℤ :=
  let l := s.data.dropWhile jsIsSpace
  let core := fun (m : List Char) =>
    let ds := m.takeWhile Char.isDigit
    if ds.isEmpty then (none : Option Nat) else some (digitsToNat ds)
  match l with
  | '-' :: rest => (core rest).map (fun n => -(n : ℤ))
  | '+' :: rest => (core rest).map (fun n => (n : ℤ))
  | _ => (core l).map (fun n => (n : ℤ))

/-- Literal match helper: consume the pattern characters or fail. -/
def dropLit : List Char → List Char → Option (List Char)
  | [], l => some l
  | _, [] => none
  | p :: ps, c :: cs => if c = p then dropLit ps cs else none

/-- Match of the regex, quote, retry in (digits(.digits)?)s, unquote, at
the current position, returning the captured seconds as an exact
rational. -/
def matchRetryAt (l : List Char) : Option ℚ :=
  match dropLit "retry in ".data l with
  | none => none
  | some r1 =>
    let ds := r1.takeWhile Char.isDigit
    if ds.isEmpty then none
    else
      match r1.drop ds.length with
      | 's' :: _ => some (mkRat (digitsToNat ds : ℤ) 1)
      | '.' :: r3 =>
        let fs := r3.takeWhile Char.isDigit
        if fs.isEmpty then none
        else
          match r3.drop fs.length with
          | 's' :: _ =>
            some (mkRat ((digitsToNat ds : ℤ) * (10 ^ fs.length : ℕ) + (digitsToNat fs : ℤ))
              (10 ^ fs.length))
          | _ => none
      | _ => none

/-- errorText.match of the retry-in regex: first matching position wins.
The first argument is fuel (length plus one suffices). -/
def parseRetryInAux : Nat → List Char → Option ℚ
  | 0, _ => none
  | _ + 1, [] => none
  | fuel + 1, c :: rest =>
    match matchRetryAt (c :: rest) with
    | some q => some q
    | none => parseRetryInAux fuel rest

def parseRetryIn (s : String) : Option ℚ :=
  parseRetryInAux (s.data.length + 1) s.data

/-- waitTime seconds scaled to the actual delay waitTime * 1000 + 1000
milliseconds, written on the numerator and denominator so that kernel
reduction can evaluate it. -/
def delay429 (waitTime : ℚ) : ℚ :=
  mkRat (waitTime.num * 1000 + 1000 * (waitTime.den : ℤ)) waitTime.den

/-- The 429 wait computation of callLLM: a present nonempty Retry-After
header is parsed with parseInt, a zero or unparseable value falling back
to 5; otherwise the error body is searched for a retry-in pattern,
defaulting to 5 seconds. -/
def waitSeconds429 (retryAfterHeader : Option String) (body : String) : ℚ :=
  let bodyWait : ℚ :=
    match parseRetryIn body with
    | some q => q
    | none => 5
  match retryAfterHeader with
  | some h =>
    if h = "" then bodyWait
    else
      match jsParseInt h with
      | some n => if n = 0 then 5 else (n : ℚ)
      | none => 5
  | none => bodyWait

/-- callLLM of the background service worker on the remote-provider fetch
path (the nano and puter branches never reach this retry logic).  The
outcome list is the environment: the head is consumed by the current
attempt.  MAX_RETRIES = 3 counts retries, so up to 4 attempts occur.  A
non-ok response raises the message, LLM API error colon status dash body;
the catch handler retries on any error whose message contains neither 401
nor 403 while retryCount is below 3, waiting 1000 * 2 ^ retryCount
milliseconds; a 429 response with retries left is instead retried after
the server-derived delay. -/
def callLLM : List AttemptOutcome → Nat → CallTrace
  | [], _ => { result := .error "no response", attempts := 0, waits := [] }
  | outcome :: rest, retryCount =>
    match outcome with
    | .success text => { result := .ok text, attempts := 1, waits := [] }
    | .httpError status hdr body =>
      if status = 429 && retryCount < 3 then
        let r := callLLM rest (retryCount + 1)
        { result := r.result
          attempts := r.attempts + 1
          waits := delay429 (waitSeconds429 hdr body) :: r.waits }
      else
        let msg := "LLM API error: " ++ Nat.repr status ++ " - " ++ body
        if retryCount < 3 && !(jsIncludes msg "401") && !(jsIncludes msg "403") then
          let r := callLLM rest (retryCount + 1)
          { result := r.result
            attempts := r.attempts + 1
            waits := ((1000 * 2 ^ retryCount : ℕ) : ℚ) :: r.waits }
        else { result := .error msg, attempts := 1, waits := [] }
    | .netError msg =>
      if retryCount < 3 && !(jsIncludes msg "401") && !(jsIncludes msg "403") then
        let r := callLLM rest (retryCount + 1)
        { result := r.result
          attempts := r.attempts + 1
          waits := ((1000 * 2 ^ retryCount : ℕ) : ℚ) :: r.waits }
      else { result := .error msg, attempts := 1, waits := [] }

/-- LLMService.call of src/unnamed/part_002: a for loop of at most 3
attempts; a non-ok response raises, API error status colon body; messages
containing 401 or 403 are rethrown at once; otherwise the loop waits
1000 * (attempt + 1) milliseconds before the next attempt and finally
rethrows the last error. -/
def llmServiceCall : List AttemptOutcome → Nat → CallTrace
  | [], _ => { result := .error "no response", attempts := 0, waits := [] }
  | outcome :: rest, attempt =>
    match outcome with
    | .success text => { result := .ok text, attempts := 1, waits := [] }
    | .httpError status _ body =>
      let msg := "API error " ++ Nat.repr status ++ ": " ++ body
      if jsIncludes msg "401" || jsIncludes msg "403" then
        { result := .error msg, attempts := 1, waits := [] }
      else if attempt < 2 then
        let r := llmServiceCall rest (attempt + 1)
        { result := r.result
          attempts := r.attempts + 1
          waits := ((1000 * (attempt + 1) : ℕ) : ℚ) :: r.waits }
      else { result := .error msg, attempts := 1, waits := [] }
    | .netError msg =>
      if jsIncludes msg "401" || jsIncludes msg "403" then
        { result := .error msg, attempts := 1, waits := [] }
      else if attempt < 2 then
        let r := llmServiceCall rest (attempt + 1)
        { result := r.result
          attempts := r.attempts + 1
          waits := ((1000 * (attempt + 1) : ℕ) : ℚ) :: r.waits }
      else { result := .error msg, attempts := 1, waits := [] }

-- ===========================================================================
-- generateComment (src/background/service-worker.js lines 352-447)
-- ===========================================================================

/-- The response object of generateComment as far as the claims observe
it: the success flag, the trimmed comment, the analysis carried along, and
the error message of the failure branches. -/
structure GenResult where
  success : Bool
  comment : String := ""
  analysis : String := ""
  error : String := ""
  deriving DecidableEq, Repr

/-- An entry of the service worker responseCache: the stored result object
and the write timestamp. -/
structure SWCacheEntry where
  value : GenResult
  timestamp : ℤ
  deriving DecidableEq, Repr

/-- The chrome.storage.local state touched by generateComment. -/
structure SWState where
  rateTimestamps : List ℤ
  cache : List (String × SWCacheEntry)
  deriving DecidableEq, Repr

/-- Indexing of the service worker cache object. -/
def swLookup (cache : List (String × SWCacheEntry)) (key : String) : Option SWCacheEntry :=
  (cache.find? (fun p => p.1 = key)).map (fun p => p.2)

/-- setCache: cache[key] = (value, now), preserving object insertion
order. -/
def swSetCache (cache : List (String × SWCacheEntry)) (key : String)
    (value : GenResult) (now : ℤ) : List (String × SWCacheEntry) :=
  match swLookup cache key with
  | some _ => cache.map (fun p => if p.1 = key then (key, ⟨value, now⟩) else p)
  | none => cache ++ [(key, ⟨value, now⟩)]

/-- JavaScript String.prototype.trim over ASCII whitespace, written on the
character list so that kernel reduction can evaluate it. -/
def jsTrim (s : String) : String :=
  String.mk (((s.data.dropWhile jsIsSpace).reverse.dropWhile jsIsSpace).reverse)

/-- The word-limit derivation before buildGenerationPrompt: 20 by default,
floor (maxTokens / 5) when maxTokens is truthy (nonzero) and at most
200. -/
def deriveWordLimit (maxTokens : Nat) : Nat :=
  if maxTokens ≠ 0 ∧ maxTokens ≤ 200 then maxTokens / 5 else 20

/-- The wordLimit binding at the top of buildGenerationPrompt, the
expression constraints dot-question wordLimit or-else 20: a missing
constraints object and the falsy value 0 both fall back to 20. -/
def promptWordLimit (constraintsWordLimit : Option Nat) : Nat :=
  match constraintsWordLimit with
  | none => 20
  | some w => if w = 0 then 20 else w

/-- The hard length constraint embedded in the Stage-2 system prompt of
buildGenerationPrompt, including its or-else 20 fallback. -/
def wordLimitLine (constraintsWordLimit : Option Nat) : String :=
  "4. Length: MAX " ++ Nat.repr (promptWordLimit constraintsWordLimit) ++ " WORDS"

/-- The cap actually embedded in the Stage-2 prompt for a configured token
budget: generateComment derives the limit and buildGenerationPrompt
applies the or-else 20 fallback. -/
def embeddedWordLimit (maxTokens : Nat) : Nat :=
  promptWordLimit (some (deriveWordLimit maxTokens))

/-- generateComment: the admission check, the cache probe (a fresh hit is
returned as stored unless a vibe is requested), the two LLM stages, and on
success the cache write followed by recordCommentGeneration.  The
analysisResult parameter is the outcome of the Stage-1 call: its failure
is absorbed into the fallback analysis (the first 100 content characters)
and never aborts the request.  The genResult parameter is the outcome of
the Stage-2 call; its failure is returned as a failure result without
touching the stored state.  Returns the result and the resulting
state. -/
def generateComment (st : SWState) (now : ℤ) (cacheKey : String)
    (postContent : String) (vibe : Bool)
    (analysisResult : Except String String) (genResult : Except String String) :
    GenResult × SWState :=
  let rl := swCheckRateLimit st.rateTimestamps now
  if !rl.allowed then
    ({ success := false, error := "Rate limit reached." }, st)
  else
    let cached := swLookup st.cache cacheKey
    let freshHit :=
      match cached with
      | some entry => if now - entry.timestamp < 86400000 then some entry else none
      | none => none
    match freshHit with
    | some entry =>
      if !vibe then (entry.value, st)
      else
        match genResult with
        | .error msg => ({ success := false, error := msg }, st)
        | .ok comment =>
          let analysis :=
            match analysisResult with
            | .ok a => a
            | .error _ => String.mk (postContent.data.take 100)
          let final : GenResult := { success := true, comment := jsTrim comment
                                     analysis := analysis }
          (final, { rateTimestamps := recordCommentGeneration st.rateTimestamps now
                    cache := swSetCache st.cache cacheKey final now })
    | none =>
      match genResult with
      | .error msg => ({ success := false, error := msg }, st)
      | .ok comment =>
        let analysis :=
          match analysisResult with
          | .ok a => a
          | .error _ => String.mk (postContent.data.take 100)
        let final : GenResult := { success := true, comment := jsTrim comment
                                   analysis := analysis }
        (final, { rateTimestamps := recordCommentGeneration st.rateTimestamps now
                  cache := swSetCache st.cache cacheKey final now })

-- ===========================================================================
-- Claim theorems
-- ===========================================================================

/-- The schedule of the C1 scenario: one generation every 60 seconds. -/
def c1Schedule (n : Nat) : List ℤ := (List.range n).map (fun k => (k : ℤ) * 60000)

/-- C1: starting from an empty rate-limit state, each of 10 generation
attempts inside one hour (here spaced 60 seconds apart, respecting the
cooldown) is allowed; with 10 timestamps inside the trailing hour the 11th
check returns allowed false with remaining 0; a check 5 seconds after the
most recent recorded generation is rejected by the 30-second cooldown with
25 remaining wait seconds reported; a check 31 seconds after it is not
rejected by the cooldown. -/
theorem c1_admission_gate_rate_and_cooldown :
    ((List.range 10).map
        (fun k => (checkRateLimit (c1Schedule k) ((k : ℤ) * 60000)).allowed)
      = List.replicate 10 true)
    ∧ (checkRateLimit (c1Schedule 10) 570000).allowed = false
    ∧ (checkRateLimit (c1Schedule 10) 570000).remaining = 0
    ∧ (checkRateLimit [0] 5000).allowed = false
    ∧ (checkRateLimit [0] 5000).reason = some "Too soon after last comment"
    ∧ (checkRateLimit [0] 5000).waitSeconds = some 25
    ∧ (checkRateLimit [0] 31000).allowed = true
    ∧ (checkRateLimit [0] 31000).waitSeconds = none := by
  decide

/-- C2: for every key present in the stored cache, a get at any instant at
most 24 hours after the entry's timestamp is a hit that leaves the stored
cache unchanged, and a get strictly more than 24 hours after the entry's
timestamp deletes the entry and reports a miss. -/
theorem c2_cache_ttl (cache : List (String × CacheEntry)) (hash : String)
    (entry : CacheEntry) (now : ℤ) (pick : Nat) (vary : Bool)
    (strat : Fin 3) (openingIdx : Fin 5) (additionIdx : Fin 4) (subIdx : Fin 3)
    (hfind : lookupCache cache hash = some entry) :
    (now - entry.timestamp ≤ ttlMs →
      (cacheGetByHash cache hash now pick vary strat openingIdx additionIdx subIdx).1.isSome
        = true
      ∧ (cacheGetByHash cache hash now pick vary strat openingIdx additionIdx subIdx).2
        = cache)
    ∧ (ttlMs < now - entry.timestamp →
      (cacheGetByHash cache hash now pick vary strat openingIdx additionIdx subIdx).1
        = none
      ∧ (cacheGetByHash cache hash now pick vary strat openingIdx additionIdx subIdx).2
        = eraseKey cache hash) := by
  unfold cacheGetByHash
  rw [hfind]
  dsimp only
  constructor
  · intro h
    rw [if_neg (by omega)]
    exact ⟨rfl, rfl⟩
  · intro h
    rw [if_pos h]
    exact ⟨rfl, rfl⟩

/-- The one-entry cache of the C2 witness, written at time 0. -/
def c2Cache : List (String × CacheEntry) :=
  [("h", { responses := ["r"], timestamp := 0 })]

/-- C2 witness: at 23 h 59 min the entry is a hit and the store is
unchanged; at 24 h 01 min it is a miss and the entry is deleted. -/
theorem c2_cache_ttl_witness :
    ((cacheGetByHash c2Cache "h" 86340000 0 false 0 0 0 0).1.isSome = true
      ∧ (cacheGetByHash c2Cache "h" 86340000 0 false 0 0 0 0).2 = c2Cache)
    ∧ ((cacheGetByHash c2Cache "h" 86460000 0 false 0 0 0 0).1 = none
      ∧ (cacheGetByHash c2Cache "h" 86460000 0 false 0 0 0 0).2 = eraseKey c2Cache "h") :=
  ⟨(c2_cache_ttl c2Cache "h" { responses := ["r"], timestamp := 0 } 86340000 0 false
      0 0 0 0 rfl).1 (by decide),
   (c2_cache_ttl c2Cache "h" { responses := ["r"], timestamp := 0 } 86460000 0 false
      0 0 0 0 rfl).2 (by decide)⟩

/-- Cleanup never leaves more than maxEntries entries. -/
theorem cleanup_length_le (cache : List (String × CacheEntry)) (now : ℤ) :
    (cleanup cache now).length ≤ maxEntries := by
  simp only [cleanup]
  by_cases h : maxEntries < cache.length
  · rw [if_pos h]
    calc (List.filter _ _).length
        ≤ ((stableSort _ cache).take maxEntries).length := List.length_filter_le _ _
      _ ≤ maxEntries := List.length_take_le _ _
  · rw [if_neg h]
    calc (List.filter _ _).length ≤ cache.length := List.length_filter_le _ _
      _ ≤ maxEntries := Nat.not_lt.mp h

/-- Key of the i-th fingerprint in the C3 eviction scenario. -/
def c3Key (i : Nat) : String := "k" ++ Nat.repr i

/-- The cache after inserting 101 distinct fingerprints with strictly
increasing timestamps 0, 1, ..., 100 into an empty cache. -/
def c3Final : List (String × CacheEntry) :=
  (List.range 101).foldl (fun c i => cacheSetByHash c (c3Key i) "r" (i : ℤ)) []

/-- C3: every set leaves at most 100 entries, whatever the prior store;
and inserting 101 distinct fingerprints with strictly increasing
timestamps into an empty cache leaves exactly 100 entries, the single
evicted one being the entry with the oldest timestamp (the first key). -/
theorem c3_cache_size_and_eviction :
    (∀ (cache : List (String × CacheEntry)) (hash response : String) (now : ℤ),
      (cacheSetByHash cache hash response now).length ≤ maxEntries)
    ∧ c3Final.length = 100
    ∧ lookupCache c3Final (c3Key 0) = none
    ∧ ((List.range 101).map (fun i => (lookupCache c3Final (c3Key i)).isSome)
        = false :: List.replicate 100 true) := by
  refine ⟨fun cache hash response now => ?_, ?_, ?_, ?_⟩
  · unfold cacheSetByHash
    exact cleanup_length_le _ _
  · decide
  · decide
  · decide

/-- C4 counterexample: the claim that applyVariation never returns its
input fails at an explicit input; for the one-sentence stored response,
hello, the opening-rephrase strategy (fewer than two sentences) returns
the text verbatim, equal to the stored original. -/
theorem c4_variation_counterexample :
    applyVariation "hello" 0 0 0 0 = "hello" := by
  decide

/-- C4 amended: forced variation does not guarantee a changed string; for
every transform strategy there are internal random picks under which the
stored response, hello, is returned unchanged, and consequently a cache
hit with the variation path triggered can return the stored original
byte-identically. -/
theorem c4_variation_can_return_original :
    (∀ strat : Fin 3, ∃ openingIdx : Fin 5, ∃ additionIdx : Fin 4, ∃ subIdx : Fin 3,
      applyVariation "hello" strat openingIdx additionIdx subIdx = "hello")
    ∧ (cacheGetByHash [("h", { responses := ["hello"], timestamp := 0 })] "h" 3600000
        0 true 0 0 0 0).1 = some "hello" := by
  decide

/-- If some history entry in the scanned list exceeds the threshold, the
scan reports passed false. -/
theorem simLoop_blocks (cand : String) (l : List String) (r : String)
    (hmem : r ∈ l) (hgt : similarityThreshold < calculateSimilarity cand r) :
    (simLoop cand l).passed = false := by
  induction l with
  | nil => cases hmem
  | cons x xs ih =>
    unfold simLoop
    by_cases hx : similarityThreshold < calculateSimilarity cand x
    · rw [if_pos hx]
    · rw [if_neg hx]
      rcases List.mem_cons.mp hmem with h | h
      · exact absurd (h ▸ hgt) hx
      · exact ih h

/-- If every history entry in the scanned list is at most the threshold,
the scan reports passed true. -/
theorem simLoop_passes (cand : String) (l : List String)
    (hall : ∀ r ∈ l, calculateSimilarity cand r ≤ similarityThreshold) :
    (simLoop cand l).passed = true := by
  induction l with
  | nil => rfl
  | cons x xs ih =>
    unfold simLoop
    rw [if_neg (not_lt.mpr (hall x (List.mem_cons_self x xs)))]
    exact ih (fun r hr => hall r (List.mem_cons_of_mem x hr))

/-- C5 counterexample: a candidate at Jaccard similarity exactly 0.6 to a
history entry (word sets of four words sharing three, union five) is not
rejected, because the source blocks only on similarity strictly greater
than 0.6; the claim that at least 0.6 blocks is therefore false. -/
theorem c5_similarity_counterexample :
    calculateSimilarity "a b c d" "a b c e" = similarityThreshold
    ∧ (checkSimilarityToRecent "a b c d" ["a b c e"]).passed = true := by
  decide

/-- C5 amended: a candidate whose similarity to some of the last 20
history entries strictly exceeds 0.6 is rejected, and when the exceeding
entry is scanned first the result carries the rounded matched percentage;
a candidate whose similarity to every scanned entry is at most 0.6
(including exactly 0.6 and the 0.59 case of the claim) is not
rejected. -/
theorem c5_similarity_threshold (cand : String) (history : List String) :
    (∀ r ∈ history.take 20,
      similarityThreshold < calculateSimilarity cand r →
      (checkSimilarityToRecent cand history).passed = false)
    ∧ ((∀ r ∈ history.take 20, calculateSimilarity cand r ≤ similarityThreshold) →
      (checkSimilarityToRecent cand history).passed = true)
    ∧ (∀ (r : String) (rest : List String),
      similarityThreshold < calculateSimilarity cand r →
      checkSimilarityToRecent cand (r :: rest)
        = { passed := false, similarity := some (calculateSimilarity cand r)
            matchedPercent := some (jsRound (timesHundred (calculateSimilarity cand r))) }) := by
  refine ⟨fun r hr hgt => simLoop_blocks cand _ r hr hgt,
          fun hall => simLoop_passes cand _ hall,
          fun r rest hgt => ?_⟩
  show simLoop cand ((r :: rest).take 20) = _
  rw [List.take_cons]
  · unfold simLoop
    rw [if_pos hgt]
  · decide

/-- C5 witness: an identical candidate (similarity 1) is rejected; the
exactly-0.6 candidate is not. -/
theorem c5_similarity_threshold_witness :
    (checkSimilarityToRecent "a b c" ["a b c"]).passed = false
    ∧ (checkSimilarityToRecent "a b c d" ["a b c e"]).passed = true :=
  ⟨(c5_similarity_threshold "a b c" ["a b c"]).1 "a b c" (by decide) (by decide),
   (c5_similarity_threshold "a b c d" ["a b c e"]).2.1 (by decide)⟩

/-- callLLM makes at most 1 + (3 - retryCount) fetch attempts. -/
theorem callLLM_attempts_le (outcomes : List AttemptOutcome) :
    ∀ rc : Nat, (callLLM outcomes rc).attempts ≤ 1 + (3 - rc) := by
  induction outcomes with
  | nil => intro rc; simp [callLLM]
  | cons o rest ih =>
    intro rc
    match o with
    | .success t => simp [callLLM]
    | .httpError st hdr body =>
      simp only [callLLM]
      split
      · next hcond =>
        simp only [Bool.and_eq_true, decide_eq_true_eq] at hcond
        have := ih (rc + 1)
        simp only []
        omega
      · split
        · next hcond =>
          simp only [Bool.and_eq_true, decide_eq_true_eq] at hcond
          have := ih (rc + 1)
          simp only []
          omega
        · simp only []
          omega
    | .netError msg =>
      simp only [callLLM]
      split
      · next hcond =>
        simp only [Bool.and_eq_true, decide_eq_true_eq] at hcond
        have := ih (rc + 1)
        simp only []
        omega
      · simp only []
        omega

/-- llmServiceCall makes at most 1 + (2 - attempt) fetch attempts. -/
theorem llmServiceCall_attempts_le (outcomes : List AttemptOutcome) :
    ∀ a : Nat, (llmServiceCall outcomes a).attempts ≤ 1 + (2 - a) := by
  induction outcomes with
  | nil => intro a; simp [llmServiceCall]
  | cons o rest ih =>
    intro a
    match o with
    | .success t => simp [llmServiceCall]
    | .httpError st hdr body =>
      simp only [llmServiceCall]
      split
      · simp only []; omega
      · split
        · next hcond =>
          have := ih (a + 1)
          simp only []
          omega
        · simp only []; omega
    | .netError msg =>
      simp only [llmServiceCall]
      split
      · simp only []; omega
      · split
        · next hcond =>
          have := ih (a + 1)
          simp only []
          omega
        · simp only []; omega

/-- C6 counterexample: the claim that the provider call layer makes at
most 3 attempts for transient failures fails on callLLM: MAX_RETRIES = 3
counts retries after the initial attempt, so four persistent network
errors produce four fetch attempts. -/
theorem c6_retry_counterexample :
    (callLLM [.netError "ECONNRESET", .netError "ECONNRESET",
              .netError "ECONNRESET", .netError "ECONNRESET"] 0).attempts = 4 := by
  decide

/-- C6 amended: callLLM makes at most 4 attempts (one initial plus up to 3
retries) with exponential backoff doubling on each retry (1000, 2000, 4000
milliseconds), while LLMService.call makes at most 3 attempts; a 401
response returns immediately after a single attempt with no wait; a 429
response with the Retry-After header value 5 waits 6000 milliseconds (at
least 5 seconds) before retrying and consumes one retry; a call that fails
twice with a transient error and succeeds on the third attempt returns the
successful result. -/
theorem c6_retry_policy :
    (∀ outcomes : List AttemptOutcome, (callLLM outcomes 0).attempts ≤ 4)
    ∧ (∀ outcomes : List AttemptOutcome, (llmServiceCall outcomes 0).attempts ≤ 3)
    ∧ callLLM [.netError "ECONNRESET", .netError "ECONNRESET",
               .netError "ECONNRESET", .netError "ECONNRESET"] 0
      = { result := .error "ECONNRESET", attempts := 4, waits := [1000, 2000, 4000] }
    ∧ callLLM [.httpError 401 none "Unauthorized"] 0
      = { result := .error "LLM API error: 401 - Unauthorized", attempts := 1, waits := [] }
    ∧ (callLLM [.httpError 429 (some "5") "rate limited", .success "ok"] 0
        = { result := .ok "ok", attempts := 2, waits := [6000] }
      ∧ (5000 : ℚ) ≤ 6000)
    ∧ callLLM [.netError "timeout", .netError "timeout", .success "ok"] 0
      = { result := .ok "ok", attempts := 3, waits := [1000, 2000] } := by
  refine ⟨fun outcomes => ?_, fun outcomes => ?_, by decide, by decide, ⟨by decide, by norm_num⟩,
    by decide⟩
  · have := callLLM_attempts_le outcomes 0
    omega
  · have := llmServiceCall_attempts_le outcomes 0
    omega

/-- C7: the stored rate-limit timestamps are recorded only by a fresh
successful generation.  For every state and inputs: with a failed Stage-2
outcome the stored timestamps are unchanged (admission rejection, cache
hit and generation failure all leave them alone); and in general the
timestamps either stay unchanged or the call returned success on a fresh
generation and the new timestamp list is exactly
recordCommentGeneration of the old one. -/
theorem c7_quota_atomicity (st : SWState) (now : ℤ) (cacheKey postContent : String)
    (vibe : Bool) (analysisResult : Except String String) :
    (∀ msg : String,
      (generateComment st now cacheKey postContent vibe analysisResult
        (.error msg)).2.rateTimestamps = st.rateTimestamps)
    ∧ (∀ genResult : Except String String,
      (generateComment st now cacheKey postContent vibe analysisResult
        genResult).2.rateTimestamps = st.rateTimestamps
      ∨ ((∃ c, genResult = .ok c)
        ∧ (generateComment st now cacheKey postContent vibe analysisResult
            genResult).1.success = true
        ∧ (generateComment st now cacheKey postContent vibe analysisResult
            genResult).2.rateTimestamps
          = recordCommentGeneration st.rateTimestamps now)) := by
  have main : ∀ genResult : Except String String,
      (generateComment st now cacheKey postContent vibe analysisResult
        genResult).2.rateTimestamps = st.rateTimestamps
      ∨ ((∃ c, genResult = .ok c)
        ∧ (generateComment st now cacheKey postContent vibe analysisResult
            genResult).1.success = true
        ∧ (generateComment st now cacheKey postContent vibe analysisResult
            genResult).2.rateTimestamps
          = recordCommentGeneration st.rateTimestamps now) := by
    intro genResult
    unfold generateComment
    dsimp only
    split
    · exact Or.inl rfl
    · split
      · split
        · exact Or.inl rfl
        · cases genResult with
          | error msg => exact Or.inl rfl
          | ok c => exact Or.inr ⟨⟨c, rfl⟩, rfl, rfl⟩
      · cases genResult with
        | error msg => exact Or.inl rfl
        | ok c => exact Or.inr ⟨⟨c, rfl⟩, rfl, rfl⟩
  refine ⟨fun msg => ?_, main⟩
  rcases main (.error msg) with h | ⟨⟨c, hc⟩, _⟩
  · exact h
  · cases hc

/-- C8 counterexample: two posts sharing the author and the extracted
keywords, differing only in appended exclamation marks, map to the
distinct fingerprints 4ref1m and 8fb605, because the punctuation noise
moves the raw content length from the short bucket (22 characters) to the
medium bucket (112 characters). -/
theorem c8_fingerprint_counterexample :
    extractKeywords "wonderful launch today"
      = extractKeywords ("wonderful launch today" ++ String.mk (List.replicate 90 '!'))
    ∧ lengthBucket "wonderful launch today" = "short"
    ∧ lengthBucket ("wonderful launch today" ++ String.mk (List.replicate 90 '!')) = "medium"
    ∧ generateSemanticHash
        { authorName := "Jane Doe", content := "wonderful launch today" }
      = "4ref1m"
    ∧ generateSemanticHash
        { authorName := "Jane Doe",
          content := "wonderful launch today" ++ String.mk (List.replicate 90 '!') }
      = "8fb605" := by
  decide

/-- C8 amended: the fingerprint is deterministic, and two posts agreeing
on the author name, the extracted keyword list and the content-length
bucket map to the same fingerprint; emoji or punctuation noise preserves
the fingerprint only while it does not move the raw length across a
bucket boundary. -/
theorem c8_fingerprint_determinism :
    (∀ p : PostData, generateSemanticHash p = generateSemanticHash p)
    ∧ (∀ p1 p2 : PostData,
        p1.authorName = p2.authorName →
        extractKeywords p1.content = extractKeywords p2.content →
        lengthBucket p1.content = lengthBucket p2.content →
        generateSemanticHash p1 = generateSemanticHash p2) := by
  refine ⟨fun p => rfl, fun p1 p2 h1 h2 h3 => ?_⟩
  unfold generateSemanticHash
  rw [h1, h2, h3]

/-- C8 witness: two posts differing only in punctuation noise inside the
short bucket share their fingerprint. -/
theorem c8_fingerprint_determinism_witness :
    generateSemanticHash { authorName := "Jane Doe", content := "wonderful launch today" }
      = generateSemanticHash
        { authorName := "Jane Doe", content := "wonderful, launch today!!" } :=
  c8_fingerprint_determinism.2 _ _ rfl (by decide) (by decide)

/-- C9 counterexample: the cap embedded in the Stage-2 prompt is not a
monotone function of the token budget: the budget 200 embeds cap 40 while
the larger budget 201 embeds the strictly smaller cap 20. -/
theorem c9_word_limit_counterexample :
    embeddedWordLimit 200 = 40
    ∧ embeddedWordLimit 201 = 20
    ∧ embeddedWordLimit 201 < embeddedWordLimit 200 := by
  decide

/-- C9 amended: the cap embedded in the Stage-2 prompt is the derived
floor (budget / 5) guarded by the or-else 20 fallback of
buildGenerationPrompt: budgets 5 to 200 embed floor (budget / 5), while
budgets 0 to 4 (where the floor is the falsy 0), and budgets above 200,
embed 20.  The embedded cap is monotone in the budget only on the regime
from 5 to 200; it is not monotone across either regime boundary
(budget 4 embeds 20, budget 5 embeds 1; budget 200 embeds 40, budget 201
embeds 20). -/
theorem c9_word_limit_regimes :
    (∀ b1 b2 : Nat, 5 ≤ b1 → b1 ≤ b2 → b2 ≤ 200 →
      embeddedWordLimit b1 ≤ embeddedWordLimit b2)
    ∧ (∀ b : Nat, 200 < b → embeddedWordLimit b = 20)
    ∧ (∀ b : Nat, b ≤ 4 → embeddedWordLimit b = 20)
    ∧ embeddedWordLimit 200 = 40
    ∧ embeddedWordLimit 201 = 20
    ∧ embeddedWordLimit 4 = 20
    ∧ embeddedWordLimit 5 = 1
    ∧ wordLimitLine (some (deriveWordLimit 200)) = "4. Length: MAX 40 WORDS"
    ∧ wordLimitLine (some (deriveWordLimit 201)) = "4. Length: MAX 20 WORDS"
    ∧ wordLimitLine (some (deriveWordLimit 2)) = "4. Length: MAX 20 WORDS" := by
  refine ⟨fun b1 b2 h5 h12 h200 => ?_, fun b hb => ?_, fun b hb => ?_, by decide, by decide,
    by decide, by decide, by decide, by decide, by decide⟩
  · have d1 : deriveWordLimit b1 = b1 / 5 := by
      unfold deriveWordLimit
      rw [if_pos ⟨by omega, by omega⟩]
    have d2 : deriveWordLimit b2 = b2 / 5 := by
      unfold deriveWordLimit
      rw [if_pos ⟨by omega, by omega⟩]
    unfold embeddedWordLimit promptWordLimit
    dsimp only
    rw [d1, d2, if_neg (show ¬ b1 / 5 = 0 by omega), if_neg (show ¬ b2 / 5 = 0 by omega)]
    exact Nat.div_le_div_right h12
  · unfold embeddedWordLimit deriveWordLimit
    rw [if_neg (by omega)]
    rfl
  · interval_cases b <;> decide

/-- C9 witness: inside the 5 to 200 regime the embedded cap is monotone;
a budget above 200 embeds 20; a budget whose derived floor is falsy also
embeds 20. -/
theorem c9_word_limit_regimes_witness :
    embeddedWordLimit 100 ≤ embeddedWordLimit 200
    ∧ embeddedWordLimit 300 = 20
    ∧ embeddedWordLimit 3 = 20 :=
  ⟨c9_word_limit_regimes.1 100 200 (by decide) (by decide) (by decide),
   c9_word_limit_regimes.2.1 300 (by decide),
   c9_word_limit_regimes.2.2.1 3 (by decide)⟩

/-- The whitespace split never returns the empty list: every branch of the
scanner produces at least one segment, so even the empty string yields a
one-element word set. -/
theorem jsSplitWsAux_ne_nil (l : List Char) :
    ∀ (acc : List Char) (inWs : Bool), jsSplitWsAux l acc inWs ≠ [] := by
  induction l with
  | nil =>
    intro acc inWs
    unfold jsSplitWsAux
    cases inWs <;> simp
  | cons c rest ih =>
    intro acc inWs
    unfold jsSplitWsAux
    cases inWs
    · simp only [Bool.false_eq_true, if_false]
      split
      · simp
      · exact ih _ _
    · simp only [if_true]
      split
      · exact ih _ _
      · exact ih _ _

/-- The word set of any text is nonempty. -/
theorem wordsOf_ne_nil (t : String) : wordsOf t ≠ [] := by
  unfold wordsOf
  rw [Ne, List.dedup_eq_nil]
  exact jsSplitWsAux_ne_nil _ _ _

/-- The similarity ratio expressed on the underlying finite sets. -/
theorem calculateSimilarity_eq_card (a b : String) :
    calculateSimilarity a b
      = mkRat (((wordsOf a).toFinset ∩ (wordsOf b).toFinset).card : ℤ)
          (((wordsOf a).toFinset ∪ (wordsOf b).toFinset).card) := by
  unfold calculateSimilarity
  dsimp only
  have hnodup : ((wordsOf a).filter (fun x => x ∈ wordsOf b)).Nodup :=
    (List.nodup_dedup _).filter _
  have hinter : ((wordsOf a).filter (fun x => x ∈ wordsOf b)).length
      = ((wordsOf a).toFinset ∩ (wordsOf b).toFinset).card := by
    rw [← List.toFinset_card_of_nodup hnodup]
    congr 1
    ext x
    simp [List.mem_filter]
  have hunion : ((wordsOf a ++ wordsOf b).dedup).length
      = ((wordsOf a).toFinset ∪ (wordsOf b).toFinset).card := by
    rw [← List.card_toFinset, List.toFinset_append]
  rw [hinter, hunion]

/-- The union word set of any two texts has positive cardinality. -/
theorem union_card_pos (a b : String) :
    0 < ((wordsOf a).toFinset ∪ (wordsOf b).toFinset).card := by
  rcases List.exists_mem_of_ne_nil _ (wordsOf_ne_nil a) with ⟨x, hx⟩
  exact Finset.card_pos.mpr ⟨x, Finset.mem_union_left _ (List.mem_toFinset.mpr hx)⟩

/-- C10: calculateSimilarity is total and well behaved on every pair of
strings: the union of the two word sets is never empty (splitting any
string on whitespace yields at least one element, so the denominator is
never zero), the value lies between 0 and 1, it is symmetric, and every
string has similarity 1 with itself. -/
theorem c10_similarity_well_behaved :
    ∀ a b : String,
      0 < ((wordsOf a ++ wordsOf b).dedup).length
      ∧ 0 ≤ calculateSimilarity a b
      ∧ calculateSimilarity a b ≤ 1
      ∧ calculateSimilarity a b = calculateSimilarity b a
      ∧ calculateSimilarity a a = 1 := by
  intro a b
  have hcast : ∀ (i : ℤ) (u : Nat), mkRat i u = (i : ℚ) / (u : ℚ) := by
    intro i u
    rw [Rat.mkRat_eq_divInt, Rat.divInt_eq_div]
    norm_num
  have hupos := union_card_pos a b
  have hub : (0 : ℚ) < (((wordsOf a).toFinset ∪ (wordsOf b).toFinset).card : ℚ) := by
    exact_mod_cast hupos
  have hle : ((wordsOf a).toFinset ∩ (wordsOf b).toFinset).card
      ≤ ((wordsOf a).toFinset ∪ (wordsOf b).toFinset).card :=
    Finset.card_le_card (Finset.inter_subset_union)
  refine ⟨?_, ?_, ?_, ?_, ?_⟩
  · rw [Nat.pos_iff_ne_zero, Ne, List.length_eq_zero]
    intro hnil
    rcases List.append_eq_nil.mp ((List.dedup_eq_nil _).mp hnil) with ⟨ha, _⟩
    exact wordsOf_ne_nil a ha
  · rw [calculateSimilarity_eq_card, hcast]
    positivity
  · rw [calculateSimilarity_eq_card, hcast]
    rw [div_le_one hub]
    exact_mod_cast hle
  · rw [calculateSimilarity_eq_card, calculateSimilarity_eq_card b a,
      Finset.inter_comm, Finset.union_comm]
  · rw [calculateSimilarity_eq_card, Finset.inter_self, Finset.union_self, hcast]
    have hapos : (0 : ℚ) < ((wordsOf a).toFinset.card : ℚ) := by
      have := union_card_pos a a
      rw [Finset.union_self] at this
      exact_mod_cast this
    exact div_self (ne_of_gt hapos)
